import Mathlib

/-!
Shallow embedding of `xmipy/xmiwrapper.py` (class `XmiWrapper`): the lifecycle
state machine, the invoker `_execute_function`, and the value-marshaling layer
(`get_value`, `get_value_ptr`, `get_value_ptr_scalar`, `set_value`,
`get_input_var_names`).  The native kernel behind the `ctypes` boundary is
modelled as an explicit state (`Kernel`): per-variable metadata (rank, type
string, shape, nbytes), numeric backing memory, fixed-width string memory, and
the integer statuses its entry points return.  A numpy array is `NArray`; its
buffer is either an owned list of elements or an alias into kernel memory
(`ndpointer` views).  Python exceptions become the `Err` sum; each wrapper
operation also returns the list of native entry points it invoked, so that
"raises before any native call" is a statement about that trace.
-/

namespace Xmipy

/-- Python exceptions raised by the wrapper: `InputError`, `XMIError` and
`TimerError` from `xmipy.errors`, plus the `ctypes`-level `ValueError`
(raised by `c_int.in_dll` on a missing data symbol) and `AttributeError`
(raised by `CDLL` attribute access on a missing function symbol), and
`NotImplementedError`. -/
inductive Err where
  | inputError (msg : String)
  | xmiError (msg : String)
  | valueError (msg : String)
  | attributeError (msg : String)
  | timerError (msg : String)
  | notImplementedError
deriving DecidableEq, Repr

/-- The lifecycle state enum `State` of `xmiwrapper.py` (UNINITIALIZED = 1,
INITIALIZED = 2). -/
inductive LifecycleState where
  | uninitialized
  | initialized
deriving DecidableEq, Repr

/-- numpy dtypes that occur in the wrapper: float64, float32, int32, and the
fixed-width bytes dtype "<S(w)". -/
inductive DType where
  | f64
  | f32
  | i32
  | bytesFixed (w : Nat)
deriving DecidableEq, Repr

/-- The storage of a numpy array: either memory owned by the array itself, or
an alias into the kernel-owned memory of a named variable (the result of
`np.ctypeslib.ndpointer(...).contents`).  Numeric elements are modelled as
integers (the marshaling layer never computes with them, it only copies). -/
inductive Buf where
  | owned (data : List Int)
  | alias (var : String)
deriving DecidableEq, Repr

/-- A numpy array as the wrapper sees it: dtype, shape, the C-contiguity flag
(`flags["C"]`), and the backing buffer. -/
structure NArray where
  dtype : DType
  shape : List Nat
  flagC : Bool
  buf : Buf
deriving DecidableEq, Repr

/-- Catalog metadata of one kernel variable: rank, the native type string
(e.g. "DOUBLE (len)"), the shape reported by `get_var_shape`, and
`get_var_nbytes`. -/
structure VarInfo where
  rank : Nat
  varType : String
  shape : List Nat
  nbytes : Nat
deriving DecidableEq, Repr

/-- The native library's diagnostic surface, as `_execute_function` probes it:
which data constants and entry points exist, and the strings they produce. -/
structure Lib where
  hasLenErrMessage : Bool
  hasGetLastBmiError : Bool
  hasLenComponentName : Bool
  hasGetComponentName : Bool
  errMessage : String
  componentName : String
deriving DecidableEq, Repr

/-- The in-process native kernel: variable catalog, numeric memory (one list of
elements per variable), fixed-width string memory (one list of byte rows per
variable), the flat null-padded names table with its row width and item count,
the diagnostic surface, and the statuses returned by the lifecycle entry
points. -/
structure Kernel where
  vars : List (String × VarInfo)
  mem : List (String × List Int)
  smem : List (String × List (List Nat))
  lenVarAddress : Nat
  inputItemCount : Nat
  inputNamesFlat : List Nat
  lib : Lib
  initStatus : Int
  initMpiStatus : Int
  finalStatus : Int
deriving DecidableEq, Repr

/-- Point update of an association list (models in-place mutation of one
kernel variable's backing memory). -/
def assocSet {α : Type} (l : List (String × α)) (n : String) (v : α) :
    List (String × α) :=
  match l with
  | [] => [(n, v)]
  | (m, w) :: t => if m = n then (n, v) :: t else (m, w) :: assocSet t n v

/-- The numeric backing memory of variable `n`. -/
def readMem (k : Kernel) (n : String) : List Int :=
  (k.mem.lookup n).getD []

/-- The fixed-width string rows of variable `n`. -/
def readSMem (k : Kernel) (n : String) : List (List Nat) :=
  (k.smem.lookup n).getD []

/-- Write element `i` of variable `n`'s kernel memory (mutation through an
aliased view). -/
def writeMem (k : Kernel) (n : String) (i : Nat) (x : Int) : Kernel :=
  { k with mem := assocSet k.mem n ((readMem k n).set i x) }

/-- The contents of a buffer under kernel state `k`: owned data is read as is,
an alias reads the kernel memory it points into. -/
def readBuf (k : Kernel) : Buf → List Int
  | Buf.owned d => d
  | Buf.alias n => readMem k n

/-- The element contents of an array under kernel state `k`. -/
def readArr (k : Kernel) (a : NArray) : List Int :=
  readBuf k a.buf

/-- numpy `a[i] = x`: writing an owned array touches only the array, writing
an aliased view mutates the kernel memory behind it. -/
def writeElem (k : Kernel) (a : NArray) (i : Nat) (x : Int) : Kernel × NArray :=
  match a.buf with
  | Buf.owned d => (k, { a with buf := Buf.owned (d.set i x) })
  | Buf.alias n => (writeMem k n i x, a)

/-- numpy `.copy()`: an owned array holding the current contents. -/
def npCopy (k : Kernel) (a : NArray) : NArray :=
  { a with buf := Buf.owned (readArr k a), flagC := true }

/-- numpy `np.empty(shape, dtype, order="C")`: a fresh owned C-contiguous
array (contents arbitrary, modelled as zeros). -/
def npEmpty (shape : List Nat) (dtype : DType) : NArray :=
  { dtype := dtype, shape := shape, flagC := true
    buf := Buf.owned (List.replicate shape.prod 0) }

/-- Python `str.lower()`. -/
def pyLower (s : String) : String :=
  String.mk (s.data.map Char.toLower)

/-- Python `str.startswith(p)`. -/
def pyStartswith (s p : String) : Bool :=
  p.data.isPrefixOf s.data

/-- Python `repr` of a string as used in f"{var_type!r}" messages. -/
def pyRepr (s : String) : String :=
  "'" ++ s ++ "'"

/-- Bytes that Python `str.strip()` removes (ascii whitespace). -/
def isPySpace (c : Nat) : Bool :=
  c == 32 || c == 9 || c == 10 || c == 13 || c == 11 || c == 12

/-- Reading one element of a numpy "<S(w)" array: numpy drops the trailing
null bytes of the fixed-width field. -/
def dropTrailingNulls (l : List Nat) : List Nat :=
  (l.reverse.dropWhile (fun c => c == 0)).reverse

/-- Python `str.strip()` on a byte row: whitespace removed from both ends. -/
def pyStrip (l : List Nat) : List Nat :=
  ((l.dropWhile isPySpace).reverse.dropWhile isPySpace).reverse

/-- The decode of one fixed-width string field as `get_value` does it:
numpy element read (trailing nulls dropped), then `.decode("ascii").strip()`.
The bytes are returned; `asciiDecode` turns them into the Python string. -/
def decodeFixedString (field : List Nat) : List Nat :=
  pyStrip (dropTrailingNulls field)

/-- `bytes.split(b"\x00", 1)[0]` as used on each row of the names table:
the bytes before the first null byte. -/
def truncAtNull (row : List Nat) : List Nat :=
  row.takeWhile (fun c => c != 0)

/-- `bytes.decode("ascii")` on a byte list (assumed ascii). -/
def asciiDecode (l : List Nat) : String :=
  String.mk (l.map Char.ofNat)

/-- Modelled from the spec: `repr_function_call` of `xmipy.utils` (not under
`src/`), "a textual rendering of each argument" after the entry point's name,
as the docstring examples `initialize(b'')`, `get_start_time(&c_double(0.0))`
show: name, open paren, comma-separated arguments, close paren. -/
def repr_function_call (fname : String) (args : List String) : String :=
  fname ++ "(" ++ String.intercalate ", " args ++ ")"

/-- `XmiWrapper._execute_function`, given the integer status the native entry
point returned.  Result: the log lines emitted on the error path, and either
success or the exception raised.  On nonzero status the message starts from
`"BMI exception in " + repr_function_call(...)`; the diagnostic retrieval then
reads `BMI_LENERRMESSAGE` via `c_int.in_dll` (missing data symbol: `ValueError`,
which the `except AttributeError` clause does not catch), resolves
`get_last_bmi_error` on the `CDLL` (missing function: `AttributeError`, caught
and logged), reads `BMI_LENCOMPONENTNAME`, resolves `get_component_name`, and
appends the component name, the error text and the optional `detail` kwarg. -/
def execute_function (lib : Lib) (fname : String) (args : List String)
    (detail : Option String) (status : Int) : List String × Except Err Unit :=
  if status == 0 then ([], Except.ok ())
  else
    let msg0 := "BMI exception in " ++ repr_function_call fname args
    if !lib.hasLenErrMessage then
      ([], Except.error (Err.valueError "BMI_LENERRMESSAGE"))
    else if !lib.hasGetLastBmiError then
      (["Couldn't extract error message"], Except.error (Err.xmiError msg0))
    else if !lib.hasLenComponentName then
      ([], Except.error (Err.valueError "BMI_LENCOMPONENTNAME"))
    else if !lib.hasGetComponentName then
      (["Couldn't extract error message"], Except.error (Err.xmiError msg0))
    else
      let detailStr :=
        match detail with
        | some d => ", details : '" ++ d ++ "'"
        | none => ""
      ([], Except.error (Err.xmiError
        (msg0 ++ ": Message from " ++ lib.componentName ++ " '"
          ++ lib.errMessage ++ "'" ++ detailStr)))

/-- The exception `_execute_function` raises for entry point `fname` with a
nonzero status (used by the metadata calls when the variable is unknown to
the kernel). -/
def invokeFail (k : Kernel) (fname : String) (args : List String) : Err :=
  match execute_function k.lib fname args none 1 with
  | (_, Except.error e) => e
  | (_, Except.ok _) => Err.xmiError fname

/-- `XmiWrapper.get_var_rank`: one native call; the kernel answers from its
catalog, or fails when it does not know the variable. -/
def get_var_rank (k : Kernel) (name : String) : List String × Except Err Nat :=
  match k.vars.lookup name with
  | some vi => (["get_var_rank"], Except.ok vi.rank)
  | none => (["get_var_rank"], Except.error (invokeFail k "get_var_rank" [name]))

/-- `XmiWrapper.get_var_type`: one native call returning the type string. -/
def get_var_type (k : Kernel) (name : String) : List String × Except Err String :=
  match k.vars.lookup name with
  | some vi => (["get_var_type"], Except.ok vi.varType)
  | none => (["get_var_type"], Except.error (invokeFail k "get_var_type" [name]))

/-- `XmiWrapper.get_var_shape`: calls `get_var_rank` (a native call) to size
the buffer, then the native `get_var_shape`. -/
def get_var_shape (k : Kernel) (name : String) :
    List String × Except Err (List Nat) :=
  match get_var_rank k name with
  | (t1, Except.error e) => (t1, Except.error e)
  | (t1, Except.ok _) =>
    match k.vars.lookup name with
    | some vi => (t1 ++ ["get_var_shape"], Except.ok vi.shape)
    | none =>
      (t1 ++ ["get_var_shape"],
        Except.error (invokeFail k "get_var_shape" [name]))

/-- `XmiWrapper.get_var_nbytes`: one native call. -/
def get_var_nbytes (k : Kernel) (name : String) : List String × Except Err Nat :=
  match k.vars.lookup name with
  | some vi => (["get_var_nbytes"], Except.ok vi.nbytes)
  | none =>
    (["get_var_nbytes"], Except.error (invokeFail k "get_var_nbytes" [name]))

/-- The element count the kernel transfers for a variable: the product of its
catalog shape (1 for a rank-0 scalar). -/
def VarInfo.numel (vi : VarInfo) : Nat :=
  vi.shape.prod

/-- The element count of the named variable (0 if unknown). -/
def numelOf (k : Kernel) (name : String) : Nat :=
  ((k.vars.lookup name).map VarInfo.numel).getD 0

/-- The native `get_value` entry point writing into a caller buffer: it copies
the variable's `numel` elements of kernel memory into the front of the
destination buffer (through the raw pointer, so an aliased destination writes
kernel memory). -/
def nativeFill (k : Kernel) (name : String) (a : NArray) : Kernel × NArray :=
  let n := numelOf k name
  match a.buf with
  | Buf.owned d =>
    (k, { a with buf := Buf.owned ((readMem k name).take n ++ d.drop n) })
  | Buf.alias m =>
    (writeMemList k m ((readMem k name).take n ++ (readMem k m).drop n), a)
where
  /-- Replace the whole backing memory of variable `m`. -/
  writeMemList (k : Kernel) (m : String) (l : List Int) : Kernel :=
    { k with mem := assocSet k.mem m l }

/-- The native `set_value` entry point: it copies the variable's `numel`
elements out of the source buffer into kernel memory. -/
def nativeSet (k : Kernel) (name : String) (values : NArray) : Kernel :=
  { k with
    mem := assocSet k.mem name ((readArr k values).take (numelOf k name)) }

/-- `XmiWrapper.get_value_ptr_scalar`: `get_var_type` (native), dispatch on the
lowered type string (double, float, int in that order), then the native
`get_value_ptr` wrapped as a shape-(1,) aliased view; an unrecognised type
raises `InputError` before the native `get_value_ptr` call. -/
def get_value_ptr_scalar (k : Kernel) (name : String) :
    List String × Except Err NArray :=
  match get_var_type k name with
  | (t1, Except.error e) => (t1, Except.error e)
  | (t1, Except.ok var_type) =>
    let l := pyLower var_type
    if pyStartswith l "double" then
      (t1 ++ ["get_value_ptr"],
        Except.ok ⟨DType.f64, [1], true, Buf.alias name⟩)
    else if pyStartswith l "float" then
      (t1 ++ ["get_value_ptr"],
        Except.ok ⟨DType.f32, [1], true, Buf.alias name⟩)
    else if pyStartswith l "int" then
      (t1 ++ ["get_value_ptr"],
        Except.ok ⟨DType.i32, [1], true, Buf.alias name⟩)
    else
      (t1, Except.error
        (Err.inputError ("Unsupported value type " ++ pyRepr var_type)))

/-- `np.trim_zeros` with its default `trim="fb"`: zeros removed from the front
and from the back of the shape array. -/
def np_trim_zeros (l : List Nat) : List Nat :=
  ((l.dropWhile (fun d => d == 0)).reverse.dropWhile (fun d => d == 0)).reverse

/-- `XmiWrapper.get_value_ptr`: rank 0 delegates to `get_value_ptr_scalar`;
rank >= 1 queries type and shape, converts the shape with `np.trim_zeros`
(default mode trims zeros at BOTH ends), dispatches on the type string, and
wraps the native `get_value_ptr` result as an aliased view of that shape. -/
def get_value_ptr (k : Kernel) (name : String) :
    List String × Except Err NArray :=
  match get_var_rank k name with
  | (t1, Except.error e) => (t1, Except.error e)
  | (t1, Except.ok rank) =>
    if rank == 0 then
      match get_value_ptr_scalar k name with
      | (t2, r) => (t1 ++ t2, r)
    else
      match get_var_type k name with
      | (t2, Except.error e) => (t1 ++ t2, Except.error e)
      | (t2, Except.ok var_type) =>
        match get_var_shape k name with
        | (t3, Except.error e) => (t1 ++ t2 ++ t3, Except.error e)
        | (t3, Except.ok shape_array) =>
          let l := pyLower var_type
          let shape_tuple := np_trim_zeros shape_array
          if pyStartswith l "double" then
            (t1 ++ t2 ++ t3 ++ ["get_value_ptr"],
              Except.ok ⟨DType.f64, shape_tuple, true, Buf.alias name⟩)
          else if pyStartswith l "float" then
            (t1 ++ t2 ++ t3 ++ ["get_value_ptr"],
              Except.ok ⟨DType.f32, shape_tuple, true, Buf.alias name⟩)
          else if pyStartswith l "int" then
            (t1 ++ t2 ++ t3 ++ ["get_value_ptr"],
              Except.ok ⟨DType.i32, shape_tuple, true, Buf.alias name⟩)
          else
            (t1 ++ t2 ++ t3, Except.error
              (Err.inputError ("Unsupported value type " ++ pyRepr var_type)))

/-- The value `XmiWrapper.get_value` returns: a numeric ndarray, or (for the
string branches, after `.astype(str)`) a list of decoded Python strings. -/
inductive GVal where
  | arr (a : NArray)
  | strs (l : List String)
deriving DecidableEq, Repr

/-- `XmiWrapper.get_value`: the caller-supplied destination, when present,
must be C-contiguous before anything else happens; then rank and type are
queried; rank 0 splits into the string branch (nbytes, native `get_value`,
fixed-width decode) and the numeric branch (`get_value_ptr_scalar`, whose
result is copied with `.copy()` when no destination was supplied — the code
calls `get_value_ptr_scalar` twice on that path); rank >= 1 queries the shape,
allocates `np.empty` when no destination was supplied, and invokes the native
`get_value` to fill it; an unrecognised type raises `InputError` without
invoking the native `get_value`.  The returned kernel reflects any writes the
call made through aliased destination buffers. -/
def get_value (k : Kernel) (name : String) (dest : Option NArray) :
    List String × Except Err (Kernel × GVal) :=
  if (match dest with | some d => !d.flagC | none => false) then
    ([], Except.error (Err.inputError "Array should have C layout"))
  else
    match get_var_rank k name with
    | (t1, Except.error e) => (t1, Except.error e)
    | (t1, Except.ok rank) =>
      match get_var_type k name with
      | (t2, Except.error e) => (t1 ++ t2, Except.error e)
      | (t2, Except.ok var_type) =>
        let vtl := pyLower var_type
        if rank == 0 then
          if pyStartswith vtl "string" then
            match get_var_nbytes k name with
            | (t3, Except.error e) => (t1 ++ t2 ++ t3, Except.error e)
            | (t3, Except.ok _ilen) =>
              (t1 ++ t2 ++ t3 ++ ["get_value"],
                Except.ok (k, GVal.strs
                  [asciiDecode (decodeFixedString ((readSMem k name).headD []))]))
          else
            match get_value_ptr_scalar k name with
            | (t3, Except.error e) => (t1 ++ t2 ++ t3, Except.error e)
            | (t3, Except.ok src) =>
              match dest with
              | none =>
                match get_value_ptr_scalar k name with
                | (t4, Except.error e) => (t1 ++ t2 ++ t3 ++ t4, Except.error e)
                | (t4, Except.ok src2) =>
                  (t1 ++ t2 ++ t3 ++ t4,
                    Except.ok (k, GVal.arr (npCopy k src2)))
              | some d =>
                let kd := writeElem k d 0 ((readArr k src).headD 0)
                (t1 ++ t2 ++ t3, Except.ok (kd.1, GVal.arr kd.2))
        else
          match get_var_shape k name with
          | (t3, Except.error e) => (t1 ++ t2 ++ t3, Except.error e)
          | (t3, Except.ok var_shape) =>
            if pyStartswith vtl "double" then
              let kf := nativeFill k name (dest.getD (npEmpty var_shape DType.f64))
              (t1 ++ t2 ++ t3 ++ ["get_value"],
                Except.ok (kf.1, GVal.arr kf.2))
            else if pyStartswith vtl "int" then
              let kf := nativeFill k name (dest.getD (npEmpty var_shape DType.i32))
              (t1 ++ t2 ++ t3 ++ ["get_value"],
                Except.ok (kf.1, GVal.arr kf.2))
            else if pyStartswith vtl "string" then
              match dest with
              | none =>
                if (var_shape.headD 0) == 0 then
                  (t1 ++ t2 ++ t3, Except.ok (k, GVal.strs []))
                else
                  match get_var_nbytes k name with
                  | (t4, Except.error e) =>
                    (t1 ++ t2 ++ t3 ++ t4, Except.error e)
                  | (t4, Except.ok _ilen) =>
                    (t1 ++ t2 ++ t3 ++ t4 ++ ["get_value"],
                      Except.ok (k, GVal.strs
                        (((readSMem k name).take (var_shape.headD 0)).map
                          (fun r => asciiDecode (decodeFixedString r)))))
              | some _ =>
                (t1 ++ t2 ++ t3 ++ ["get_value"],
                  Except.ok (k, GVal.strs
                    (((readSMem k name).take (var_shape.headD 0)).map
                      (fun r => asciiDecode (decodeFixedString r)))))
            else
              (t1 ++ t2 ++ t3, Except.error
                (Err.inputError ("Unsupported value type " ++ pyRepr var_type)))

/-- `XmiWrapper.set_value`: C-contiguity of the source is checked before any
native call; the type is queried; Double requires dtype float64 and Int32
requires dtype int32 (mismatch raises `InputError` before the native
`set_value`); an unrecognised type raises `InputError "Unsupported value
type"` (this message, unlike the `get_value` one, has no repr of the type). -/
def set_value (k : Kernel) (name : String) (values : NArray) :
    List String × Except Err Kernel :=
  if !values.flagC then
    ([], Except.error (Err.inputError "Array should have C layout"))
  else
    match get_var_type k name with
    | (t1, Except.error e) => (t1, Except.error e)
    | (t1, Except.ok var_type) =>
      let vtl := pyLower var_type
      if pyStartswith vtl "double" then
        if values.dtype != DType.f64 then
          (t1, Except.error (Err.inputError "Array should have float64 elements"))
        else
          (t1 ++ ["set_value"], Except.ok (nativeSet k name values))
      else if pyStartswith vtl "int" then
        if values.dtype != DType.i32 then
          (t1, Except.error (Err.inputError "Array should have int32 elements"))
        else
          (t1 ++ ["set_value"], Except.ok (nativeSet k name values))
      else
        (t1, Except.error (Err.inputError "Unsupported value type"))

/-- `XmiWrapper.initialize` (named `initLib` here): when the state is
UNINITIALIZED, the native `initialize` is invoked (inside the working-directory
scope) and only after it returns success is the state set to INITIALIZED; when
the state is already INITIALIZED, `InputError` is raised with no native call. -/
def initLib (k : Kernel) (st : LifecycleState) (config_file : String) :
    List String × LifecycleState × Except Err Unit :=
  if st = LifecycleState.uninitialized then
    match execute_function k.lib "initialize" [config_file] none k.initStatus with
    | (_, Except.ok _) =>
      (["initialize"], LifecycleState.initialized, Except.ok ())
    | (_, Except.error e) => (["initialize"], st, Except.error e)
  else
    ([], st,
      Except.error (Err.inputError "The library is already initialized"))

/-- `XmiWrapper.initialize_mpi` (named `initMpi` here): same state machine as
`initLib`, invoking the native `initialize_mpi`. -/
def initMpi (k : Kernel) (st : LifecycleState) (value : Int) :
    List String × LifecycleState × Except Err Unit :=
  if st = LifecycleState.uninitialized then
    match execute_function k.lib "initialize_mpi" [toString value] none
        k.initMpiStatus with
    | (_, Except.ok _) =>
      (["initialize_mpi"], LifecycleState.initialized, Except.ok ())
    | (_, Except.error e) => (["initialize_mpi"], st, Except.error e)
  else
    ([], st,
      Except.error (Err.inputError "The library is already initialized"))

/-- `XmiWrapper.finalize` (named `finalizeLib` here): when the state is
INITIALIZED, the native `finalize` is invoked and only after success is the
state set back to UNINITIALIZED; when the state is UNINITIALIZED, `InputError`
is raised with no native call. -/
def finalizeLib (k : Kernel) (st : LifecycleState) :
    List String × LifecycleState × Except Err Unit :=
  if st = LifecycleState.initialized then
    match execute_function k.lib "finalize" [] none k.finalStatus with
    | (_, Except.ok _) =>
      (["finalize"], LifecycleState.uninitialized, Except.ok ())
    | (_, Except.error e) => (["finalize"], st, Except.error e)
  else
    ([], st,
      Except.error (Err.inputError "The library is not initialized yet"))

/-- `XmiWrapper.__del__` (named `delWrapper` here): calls `finalize` only when
the state is still INITIALIZED.  An exception escaping a Python `__del__` is
suppressed by the interpreter (reported through `sys.unraisablehook`, never
propagated to any caller); the suppressed exception is the third component. -/
def delWrapper (k : Kernel) (st : LifecycleState) :
    List String × LifecycleState × Option Err :=
  if st = LifecycleState.initialized then
    match finalizeLib k st with
    | (t, st2, Except.ok _) => (t, st2, none)
    | (t, st2, Except.error e) => (t, st2, some e)
  else ([], st, none)

/-- `XmiWrapper.get_input_item_count`: one native call. -/
def get_input_item_count (k : Kernel) : List String × Except Err Nat :=
  (["get_input_item_count"], Except.ok k.inputItemCount)

/-- `XmiWrapper.get_input_var_names`: reads the `BMI_LENVARADDRESS` constant
(an `in_dll` data read, not an entry-point call), queries the item count, has
the native `get_input_var_names` fill a flat buffer of `count * len_address`
null-padded rows, and decodes row `i` as the bytes before its first null. -/
def get_input_var_names (k : Kernel) :
    List String × Except Err (List String) :=
  let len_address := k.lenVarAddress
  match get_input_item_count k with
  | (t1, Except.error e) => (t1, Except.error e)
  | (t1, Except.ok nr) =>
    (t1 ++ ["get_input_var_names"],
      Except.ok ((List.range nr).map (fun i =>
        asciiDecode (truncAtNull
          ((k.inputNamesFlat.drop (i * len_address)).take len_address)))))

/-- Stated from the spec's words, for comparison in claim C7: the Catalog
shape with only TRAILING zero dimensions removed. -/
def spec_trimTrailingZeros (l : List Nat) : List Nat :=
  (l.reverse.dropWhile (fun d => d == 0)).reverse

section Helpers

/-- Two prefixes that differ in their first character exclude each other. -/
theorem pyStartswith_excl {t p q : String} {c d : Char} {ps qs : List Char}
    (hp : p.data = c :: ps) (hq : q.data = d :: qs) (hcd : c ≠ d)
    (h : pyStartswith t p = true) : pyStartswith t q = false := by
  unfold pyStartswith at h ⊢
  rw [hp] at h
  rw [hq]
  cases ht : t.data with
  | nil => rw [ht] at h; simp [List.isPrefixOf] at h
  | cons a as =>
    rw [ht] at h
    simp only [List.isPrefixOf, Bool.and_eq_true, beq_iff_eq] at h
    have hda : (d == a) = false := by
      simp only [beq_eq_false_iff_ne, ne_eq]
      exact fun hda => hcd (h.1.trans hda.symm)
    simp [List.isPrefixOf, hda]

theorem psw_double_not_string {t : String} (h : pyStartswith t "double" = true) :
    pyStartswith t "string" = false :=
  pyStartswith_excl rfl rfl (by decide) h

theorem psw_float_not_string {t : String} (h : pyStartswith t "float" = true) :
    pyStartswith t "string" = false :=
  pyStartswith_excl rfl rfl (by decide) h

theorem psw_float_not_double {t : String} (h : pyStartswith t "float" = true) :
    pyStartswith t "double" = false :=
  pyStartswith_excl rfl rfl (by decide) h

theorem psw_int_not_string {t : String} (h : pyStartswith t "int" = true) :
    pyStartswith t "string" = false :=
  pyStartswith_excl rfl rfl (by decide) h

theorem psw_int_not_double {t : String} (h : pyStartswith t "int" = true) :
    pyStartswith t "double" = false :=
  pyStartswith_excl rfl rfl (by decide) h

theorem psw_int_not_float {t : String} (h : pyStartswith t "int" = true) :
    pyStartswith t "float" = false :=
  pyStartswith_excl rfl rfl (by decide) h

/-- Looking up a key right after setting it. -/
theorem assocSet_lookup_self {α : Type} (l : List (String × α)) (n : String)
    (v : α) : (assocSet l n v).lookup n = some v := by
  induction l with
  | nil => simp [assocSet, List.lookup]
  | cons hd tl ih =>
    obtain ⟨m, w⟩ := hd
    by_cases hm : m = n
    · simp [assocSet, hm, List.lookup]
    · simp only [assocSet, hm, if_false, List.lookup]
      have hnm : (n == m) = false := by
        simp only [beq_eq_false_iff_ne, ne_eq]
        exact fun h => hm h.symm
      simp [hnm, ih]

/-- On a nonzero status `_execute_function` always raises. -/
theorem execute_function_fail (lib : Lib) (f : String) (args : List String)
    (detail : Option String) (s : Int) (hs : s ≠ 0) :
    ∃ log e, execute_function lib f args detail s = (log, Except.error e) := by
  have h0 : (s == 0) = false := by simp [hs]
  unfold execute_function
  rw [h0]
  by_cases h1 : lib.hasLenErrMessage <;> by_cases h2 : lib.hasGetLastBmiError <;>
    by_cases h3 : lib.hasLenComponentName <;>
      by_cases h4 : lib.hasGetComponentName <;>
        cases detail <;> simp [h1, h2, h3, h4]

end Helpers

section LifecycleClaims

/-- Claim C3: a second `initialize` without an intervening `finalize` raises
the lifecycle `InputError` (the spec's `StateError`) with no native call
attempted (empty invocation trace), and `finalize` in the Uninitialized state
likewise; on success `initialize` moves Uninitialized to Initialized and
`finalize` moves Initialized back to Uninitialized. -/
theorem claim_C3_lifecycle (k : Kernel) (cfg : String)
    (hi : k.initStatus = 0) (hf : k.finalStatus = 0) :
    initLib k LifecycleState.initialized cfg
      = ([], LifecycleState.initialized,
          Except.error (Err.inputError "The library is already initialized"))
    ∧ finalizeLib k LifecycleState.uninitialized
      = ([], LifecycleState.uninitialized,
          Except.error (Err.inputError "The library is not initialized yet"))
    ∧ initLib k LifecycleState.uninitialized cfg
      = (["initialize"], LifecycleState.initialized, Except.ok ())
    ∧ finalizeLib k LifecycleState.initialized
      = (["finalize"], LifecycleState.uninitialized, Except.ok ()) := by
  refine ⟨?_, ?_, ?_, ?_⟩ <;>
    simp [initLib, finalizeLib, execute_function, hi, hf]

/-- Witness for claim C3 at a concrete kernel whose native lifecycle entry
points succeed. -/
theorem claim_C3_lifecycle_witness :
    initLib ⟨[], [], [], 0, 0, [], ⟨true, true, true, true, "e", "c"⟩, 0, 0, 0⟩
        LifecycleState.initialized ""
      = ([], LifecycleState.initialized,
          Except.error (Err.inputError "The library is already initialized"))
    ∧ finalizeLib ⟨[], [], [], 0, 0, [], ⟨true, true, true, true, "e", "c"⟩, 0, 0, 0⟩
        LifecycleState.uninitialized
      = ([], LifecycleState.uninitialized,
          Except.error (Err.inputError "The library is not initialized yet"))
    ∧ initLib ⟨[], [], [], 0, 0, [], ⟨true, true, true, true, "e", "c"⟩, 0, 0, 0⟩
        LifecycleState.uninitialized ""
      = (["initialize"], LifecycleState.initialized, Except.ok ())
    ∧ finalizeLib ⟨[], [], [], 0, 0, [], ⟨true, true, true, true, "e", "c"⟩, 0, 0, 0⟩
        LifecycleState.initialized
      = (["finalize"], LifecycleState.uninitialized, Except.ok ()) :=
  claim_C3_lifecycle
    ⟨[], [], [], 0, 0, [], ⟨true, true, true, true, "e", "c"⟩, 0, 0, 0⟩ "" rfl rfl

/-- Claim C10: the state field is assigned only after the native call
succeeds: a failing native `initialize` or `initialize_mpi` leaves the state
Uninitialized (so `initialize` may be retried) and a failing native `finalize`
leaves it Initialized. -/
theorem claim_C10_atomic_transitions (k : Kernel) (cfg : String) (rank : Int)
    (hi : k.initStatus ≠ 0) (hm : k.initMpiStatus ≠ 0)
    (hf : k.finalStatus ≠ 0) :
    (∃ e, initLib k LifecycleState.uninitialized cfg
      = (["initialize"], LifecycleState.uninitialized, Except.error e))
    ∧ (∃ e, initMpi k LifecycleState.uninitialized rank
      = (["initialize_mpi"], LifecycleState.uninitialized, Except.error e))
    ∧ (∃ e, finalizeLib k LifecycleState.initialized
      = (["finalize"], LifecycleState.initialized, Except.error e)) := by
  obtain ⟨l1, e1, he1⟩ :=
    execute_function_fail k.lib "initialize" [cfg] none k.initStatus hi
  obtain ⟨l2, e2, he2⟩ :=
    execute_function_fail k.lib "initialize_mpi" [toString rank] none
      k.initMpiStatus hm
  obtain ⟨l3, e3, he3⟩ :=
    execute_function_fail k.lib "finalize" [] none k.finalStatus hf
  refine ⟨⟨e1, ?_⟩, ⟨e2, ?_⟩, ⟨e3, ?_⟩⟩ <;>
    simp [initLib, initMpi, finalizeLib, he1, he2, he3]

/-- Witness for claim C10 at a concrete kernel whose native lifecycle entry
points fail. -/
theorem claim_C10_atomic_transitions_witness :
    (∃ e, initLib ⟨[], [], [], 0, 0, [], ⟨true, true, true, true, "e", "c"⟩, 1, 1, 1⟩
        LifecycleState.uninitialized ""
      = (["initialize"], LifecycleState.uninitialized, Except.error e))
    ∧ (∃ e, initMpi ⟨[], [], [], 0, 0, [], ⟨true, true, true, true, "e", "c"⟩, 1, 1, 1⟩
        LifecycleState.uninitialized 0
      = (["initialize_mpi"], LifecycleState.uninitialized, Except.error e))
    ∧ (∃ e, finalizeLib ⟨[], [], [], 0, 0, [], ⟨true, true, true, true, "e", "c"⟩, 1, 1, 1⟩
        LifecycleState.initialized
      = (["finalize"], LifecycleState.initialized, Except.error e)) :=
  claim_C10_atomic_transitions
    ⟨[], [], [], 0, 0, [], ⟨true, true, true, true, "e", "c"⟩, 1, 1, 1⟩ "" 0
    (by decide) (by decide) (by decide)

/-- Claim C9: on owner teardown `__del__` invokes `finalize` only when the
state is still Initialized, and an error raised by that automatic `finalize`
is suppressed (the interpreter never propagates an exception out of
`__del__`); in the Uninitialized state teardown makes no native call. -/
theorem claim_C9_teardown (k : Kernel) (hf : k.finalStatus ≠ 0) :
    delWrapper k LifecycleState.uninitialized
      = ([], LifecycleState.uninitialized, none)
    ∧ (∃ e, delWrapper k LifecycleState.initialized
      = (["finalize"], LifecycleState.initialized, some e)) := by
  obtain ⟨l3, e3, he3⟩ :=
    execute_function_fail k.lib "finalize" [] none k.finalStatus hf
  refine ⟨?_, ⟨e3, ?_⟩⟩ <;> simp [delWrapper, finalizeLib, he3]

/-- Witness for claim C9 at a concrete kernel whose native `finalize` fails. -/
theorem claim_C9_teardown_witness :
    delWrapper ⟨[], [], [], 0, 0, [], ⟨true, true, true, true, "e", "c"⟩, 0, 0, 1⟩
        LifecycleState.uninitialized
      = ([], LifecycleState.uninitialized, none)
    ∧ (∃ e, delWrapper ⟨[], [], [], 0, 0, [], ⟨true, true, true, true, "e", "c"⟩, 0, 0, 1⟩
        LifecycleState.initialized
      = (["finalize"], LifecycleState.initialized, some e)) :=
  claim_C9_teardown
    ⟨[], [], [], 0, 0, [], ⟨true, true, true, true, "e", "c"⟩, 0, 0, 1⟩
    (by decide)

end LifecycleClaims

section InvokerClaims

/-- The entry point's name is a substring of the message built from
`repr_function_call` plus any suffix. -/
theorem repr_call_infix (f : String) (args : List String) (extra : String) :
    f.data <:+: ("BMI exception in " ++ repr_function_call f args ++ extra).data := by
  refine ⟨"BMI exception in ".data,
    ("(" ++ String.intercalate ", " args ++ ")" ++ extra).data, ?_⟩
  simp [repr_function_call, String.data_append, List.append_assoc]

/-- The entry point's name is a substring of the bare failure message. -/
theorem repr_call_infix0 (f : String) (args : List String) :
    f.data <:+: ("BMI exception in " ++ repr_function_call f args).data := by
  refine ⟨"BMI exception in ".data,
    ("(" ++ String.intercalate ", " args ++ ")").data, ?_⟩
  simp [repr_function_call, String.data_append, List.append_assoc]

/-- Counterexample to claim C4 as stated: with the diagnostic length constant
`BMI_LENERRMESSAGE` absent from the library, a failing native call does not
raise the `XMIError` carrying the entry point's name — the `ValueError` from
`c_int.in_dll` escapes the `except AttributeError` clause and replaces the
original error. -/
theorem claim_C4_counterexample :
    execute_function ⟨false, true, true, true, "boom", "COMP"⟩ "update" [] none 1
      = ([], Except.error (Err.valueError "BMI_LENERRMESSAGE")) := rfl

/-- Claim C4 as amended: when a native entry point returns a nonzero status
and the two diagnostic length constants exist, the invoker raises `XMIError`
whose message contains the failing entry point's name; if a diagnostic ENTRY
POINT is missing (an `AttributeError`), that failure is logged
("Couldn't extract error message") and the original error is still raised
with the same entry-point information.  (A missing length CONSTANT instead
raises `ValueError`, replacing the original error — the counterexample.) -/
theorem claim_C4_native_error_reporting (lib : Lib) (f : String)
    (args : List String) (detail : Option String) (s : Int) (hs : s ≠ 0)
    (h1 : lib.hasLenErrMessage = true) (h3 : lib.hasLenComponentName = true) :
    ∃ log msg,
      execute_function lib f args detail s = (log, Except.error (Err.xmiError msg))
      ∧ f.data <:+: msg.data
      ∧ ((lib.hasGetLastBmiError = false ∨ lib.hasGetComponentName = false) →
          log = ["Couldn't extract error message"]
          ∧ msg = "BMI exception in " ++ repr_function_call f args) := by
  have h0 : (s == 0) = false := by simp [hs]
  by_cases h2 : lib.hasGetLastBmiError
  · by_cases h4 : lib.hasGetComponentName
    · refine ⟨[], "BMI exception in " ++ repr_function_call f args
        ++ ": Message from " ++ lib.componentName ++ " '" ++ lib.errMessage
        ++ "'" ++ (match detail with
                   | some d => ", details : '" ++ d ++ "'"
                   | none => ""), ?_, ?_, ?_⟩
      · unfold execute_function
        rw [h0]
        cases detail <;> simp [h1, h2, h3, h4]
      · refine ⟨"BMI exception in ".data,
          ("(" ++ String.intercalate ", " args ++ ")" ++ ": Message from "
            ++ lib.componentName ++ " '" ++ lib.errMessage ++ "'"
            ++ (match detail with
                | some d => ", details : '" ++ d ++ "'"
                | none => "")).data, ?_⟩
        cases detail <;>
          simp [repr_function_call, String.data_append, List.append_assoc]
      · intro hmiss
        rcases hmiss with hm | hm
        · rw [h2] at hm; cases hm
        · rw [h4] at hm; cases hm
    · refine ⟨["Couldn't extract error message"],
        "BMI exception in " ++ repr_function_call f args, ?_,
        repr_call_infix0 f args, fun _ => ⟨rfl, rfl⟩⟩
      unfold execute_function
      rw [h0]
      simp [h1, h2, h3, h4]
  · refine ⟨["Couldn't extract error message"],
      "BMI exception in " ++ repr_function_call f args, ?_,
      repr_call_infix0 f args, fun _ => ⟨rfl, rfl⟩⟩
    unfold execute_function
    rw [h0]
    simp [h1, h2]

/-- Witness for the amended claim C4 at a concrete library whose
`get_last_bmi_error` entry point is absent. -/
theorem claim_C4_native_error_reporting_witness :
    ∃ log msg,
      execute_function ⟨true, false, true, true, "boom", "COMP"⟩ "update" [] none 1
        = (log, Except.error (Err.xmiError msg))
      ∧ "update".data <:+: msg.data
      ∧ ((Lib.hasGetLastBmiError ⟨true, false, true, true, "boom", "COMP"⟩ = false
          ∨ Lib.hasGetComponentName ⟨true, false, true, true, "boom", "COMP"⟩ = false) →
          log = ["Couldn't extract error message"]
          ∧ msg = "BMI exception in " ++ repr_function_call "update" []) :=
  claim_C4_native_error_reporting ⟨true, false, true, true, "boom", "COMP"⟩
    "update" [] none 1 (by decide) rfl rfl

end InvokerClaims

section TypeAndLayoutClaims

/-- Claim C5: for a variable whose native type string does not begin
(case-insensitively) with any supported type keyword (double, float, int,
string), `get_value`, `get_value_ptr` and `set_value` raise `InputError`
(the spec's `UnsupportedTypeError`) and the invocation trace contains no
value-transfer entry point (`get_value`, `get_value_ptr`, `set_value`):
only metadata queries were made. -/
theorem claim_C5_unsupported_type (k : Kernel) (v : String) (vi : VarInfo)
    (X : NArray)
    (hv : k.vars.lookup v = some vi)
    (hC : X.flagC = true)
    (hd : pyStartswith (pyLower vi.varType) "double" = false)
    (hf : pyStartswith (pyLower vi.varType) "float" = false)
    (hi : pyStartswith (pyLower vi.varType) "int" = false)
    (hs : pyStartswith (pyLower vi.varType) "string" = false) :
    (∃ tr, get_value k v none = (tr, Except.error
        (Err.inputError ("Unsupported value type " ++ pyRepr vi.varType)))
      ∧ ¬ "get_value" ∈ tr)
    ∧ (∃ tr, get_value_ptr k v = (tr, Except.error
        (Err.inputError ("Unsupported value type " ++ pyRepr vi.varType)))
      ∧ ¬ "get_value_ptr" ∈ tr)
    ∧ (∃ tr, set_value k v X = (tr, Except.error
        (Err.inputError "Unsupported value type"))
      ∧ ¬ "set_value" ∈ tr) := by
  refine ⟨?_, ?_, ?_⟩
  · by_cases hr : vi.rank = 0
    · refine ⟨["get_var_rank", "get_var_type", "get_var_type"], ?_, by decide⟩
      simp [get_value, get_var_rank, get_var_type, get_value_ptr_scalar, hv,
        hr, hd, hf, hi, hs]
    · have hr0 : (vi.rank == 0) = false := by simp [hr]
      refine ⟨["get_var_rank", "get_var_type", "get_var_rank", "get_var_shape"],
        ?_, by decide⟩
      simp [get_value, get_var_rank, get_var_type, get_var_shape, hv, hr0,
        hd, hi, hs]
  · by_cases hr : vi.rank = 0
    · refine ⟨["get_var_rank", "get_var_type"], ?_, by decide⟩
      simp [get_value_ptr, get_var_rank, get_var_type, get_value_ptr_scalar,
        hv, hr, hd, hf, hi]
    · have hr0 : (vi.rank == 0) = false := by simp [hr]
      refine ⟨["get_var_rank", "get_var_type", "get_var_rank", "get_var_shape"],
        ?_, by decide⟩
      simp [get_value_ptr, get_var_rank, get_var_type, get_var_shape, hv, hr0,
        hd, hf, hi]
  · refine ⟨["get_var_type"], ?_, by decide⟩
    simp [set_value, get_var_type, hv, hC, hd, hi]

/-- Witness for claim C5 at a concrete kernel with a LOGICAL variable. -/
theorem claim_C5_unsupported_type_witness :
    (∃ tr, get_value
        ⟨[("L", ⟨0, "LOGICAL", [], 4⟩)], [], [], 0, 0, [],
          ⟨true, true, true, true, "e", "c"⟩, 0, 0, 0⟩ "L" none
      = (tr, Except.error (Err.inputError ("Unsupported value type "
          ++ pyRepr "LOGICAL")))
      ∧ ¬ "get_value" ∈ tr)
    ∧ (∃ tr, get_value_ptr
        ⟨[("L", ⟨0, "LOGICAL", [], 4⟩)], [], [], 0, 0, [],
          ⟨true, true, true, true, "e", "c"⟩, 0, 0, 0⟩ "L"
      = (tr, Except.error (Err.inputError ("Unsupported value type "
          ++ pyRepr "LOGICAL")))
      ∧ ¬ "get_value_ptr" ∈ tr)
    ∧ (∃ tr, set_value
        ⟨[("L", ⟨0, "LOGICAL", [], 4⟩)], [], [], 0, 0, [],
          ⟨true, true, true, true, "e", "c"⟩, 0, 0, 0⟩ "L"
        ⟨DType.f64, [1], true, Buf.owned [0]⟩
      = (tr, Except.error (Err.inputError "Unsupported value type"))
      ∧ ¬ "set_value" ∈ tr) :=
  claim_C5_unsupported_type
    ⟨[("L", ⟨0, "LOGICAL", [], 4⟩)], [], [], 0, 0, [],
      ⟨true, true, true, true, "e", "c"⟩, 0, 0, 0⟩ "L" ⟨0, "LOGICAL", [], 4⟩
    ⟨DType.f64, [1], true, Buf.owned [0]⟩ rfl rfl (by decide) (by decide)
    (by decide) (by decide)

/-- Claim C6: `get_value` with a caller-supplied destination that is not
C-contiguous raises `InputError` (the spec's `LayoutError`) with an empty
invocation trace (before ANY native call); `set_value` with a non-contiguous
source likewise; and `set_value` with an element type that does not exactly
match the variable's declared type (float64 for Double, int32 for Int32)
raises `InputError` (the spec's `TypeError`) after only the `get_var_type`
metadata call — the native `set_value` entry point is never invoked. -/
theorem claim_C6_layout_and_dtype (k : Kernel) (v v1 v2 : String)
    (d X1 X2 X3 : NArray) (vd vi2 : VarInfo)
    (hd : d.flagC = false) (hX1 : X1.flagC = false)
    (hv1 : k.vars.lookup v1 = some vd)
    (hdb : pyStartswith (pyLower vd.varType) "double" = true)
    (hX2C : X2.flagC = true) (hX2d : X2.dtype ≠ DType.f64)
    (hv2 : k.vars.lookup v2 = some vi2)
    (hint : pyStartswith (pyLower vi2.varType) "int" = true)
    (hX3C : X3.flagC = true) (hX3d : X3.dtype ≠ DType.i32) :
    get_value k v (some d)
      = ([], Except.error (Err.inputError "Array should have C layout"))
    ∧ set_value k v X1
      = ([], Except.error (Err.inputError "Array should have C layout"))
    ∧ set_value k v1 X2
      = (["get_var_type"],
          Except.error (Err.inputError "Array should have float64 elements"))
    ∧ set_value k v2 X3
      = (["get_var_type"],
          Except.error (Err.inputError "Array should have int32 elements")) := by
  have hd2 : (X2.dtype != DType.f64) = true := by simp [bne, hX2d]
  have hd3 : (X3.dtype != DType.i32) = true := by simp [bne, hX3d]
  have hnd : pyStartswith (pyLower vi2.varType) "double" = false :=
    psw_int_not_double hint
  refine ⟨?_, ?_, ?_, ?_⟩
  · simp [get_value, hd]
  · simp [set_value, hX1]
  · simp [set_value, get_var_type, hv1, hX2C, hdb, hd2]
  · simp [set_value, get_var_type, hv2, hX3C, hint, hnd, hd3]

/-- Witness for claim C6 at a concrete kernel with one Double and one Int32
variable, a non-contiguous destination and source, and wrongly typed
sources. -/
theorem claim_C6_layout_and_dtype_witness :
    get_value
        ⟨[("D", ⟨1, "DOUBLE", [1], 8⟩), ("I", ⟨1, "INTEGER", [1], 4⟩)], [], [],
          0, 0, [], ⟨true, true, true, true, "e", "c"⟩, 0, 0, 0⟩ "D"
        (some ⟨DType.f64, [1], false, Buf.owned [0]⟩)
      = ([], Except.error (Err.inputError "Array should have C layout"))
    ∧ set_value
        ⟨[("D", ⟨1, "DOUBLE", [1], 8⟩), ("I", ⟨1, "INTEGER", [1], 4⟩)], [], [],
          0, 0, [], ⟨true, true, true, true, "e", "c"⟩, 0, 0, 0⟩ "D"
        ⟨DType.f64, [1], false, Buf.owned [0]⟩
      = ([], Except.error (Err.inputError "Array should have C layout"))
    ∧ set_value
        ⟨[("D", ⟨1, "DOUBLE", [1], 8⟩), ("I", ⟨1, "INTEGER", [1], 4⟩)], [], [],
          0, 0, [], ⟨true, true, true, true, "e", "c"⟩, 0, 0, 0⟩ "D"
        ⟨DType.i32, [1], true, Buf.owned [0]⟩
      = (["get_var_type"],
          Except.error (Err.inputError "Array should have float64 elements"))
    ∧ set_value
        ⟨[("D", ⟨1, "DOUBLE", [1], 8⟩), ("I", ⟨1, "INTEGER", [1], 4⟩)], [], [],
          0, 0, [], ⟨true, true, true, true, "e", "c"⟩, 0, 0, 0⟩ "I"
        ⟨DType.f64, [1], true, Buf.owned [0]⟩
      = (["get_var_type"],
          Except.error (Err.inputError "Array should have int32 elements")) :=
  claim_C6_layout_and_dtype
    ⟨[("D", ⟨1, "DOUBLE", [1], 8⟩), ("I", ⟨1, "INTEGER", [1], 4⟩)], [], [],
      0, 0, [], ⟨true, true, true, true, "e", "c"⟩, 0, 0, 0⟩
    "D" "D" "I" ⟨DType.f64, [1], false, Buf.owned [0]⟩
    ⟨DType.f64, [1], false, Buf.owned [0]⟩ ⟨DType.i32, [1], true, Buf.owned [0]⟩
    ⟨DType.f64, [1], true, Buf.owned [0]⟩ ⟨1, "DOUBLE", [1], 8⟩
    ⟨1, "INTEGER", [1], 4⟩ rfl rfl rfl (by decide) rfl (by decide) rfl
    (by decide) rfl (by decide)

end TypeAndLayoutClaims

section MarshalerClaims

/-- Claim C1: for every variable, the value returned by `get_value` with no
destination supplied is an owned copy independent of kernel memory, never the
alias itself: for a rank-0 numeric (double/float/int) variable it is a fresh
`.copy()` of the scalar aliased view, and for a rank >= 1 Double or Int32
variable it is a fresh `np.empty` buffer filled by the native call — in both
cases the buffer is `Buf.owned` holding the variable's kernel memory, while
the view obtained separately via `get_value_ptr` is `Buf.alias`.  Mutating
the kernel through that alias leaves the previously returned copy's contents
unchanged, and mutating the copy never changes the kernel (hence never the
alias's contents). -/
theorem claim_C1_copy_isolation (k : Kernel) (v : String) (vi : VarInfo)
    (hv : k.vars.lookup v = some vi)
    (hlen : (readMem k v).length = vi.shape.prod)
    (htype : pyStartswith (pyLower vi.varType) "double" = true
      ∨ pyStartswith (pyLower vi.varType) "int" = true
      ∨ (vi.rank = 0 ∧ pyStartswith (pyLower vi.varType) "float" = true)) :
    ∃ dt sh sh2 tr tr2,
      get_value k v none
        = (tr, Except.ok (k, GVal.arr ⟨dt, sh, true, Buf.owned (readMem k v)⟩))
      ∧ get_value_ptr k v = (tr2, Except.ok ⟨dt, sh2, true, Buf.alias v⟩)
      ∧ (vi.rank = 0 → sh = [1] ∧ sh2 = [1])
      ∧ (vi.rank ≠ 0 → sh = vi.shape ∧ sh2 = np_trim_zeros vi.shape)
      ∧ (∀ i x, readArr (writeElem k ⟨dt, sh2, true, Buf.alias v⟩ i x).1
            ⟨dt, sh, true, Buf.owned (readMem k v)⟩ = readMem k v)
      ∧ (∀ i x, (writeElem k ⟨dt, sh, true, Buf.owned (readMem k v)⟩ i x).1 = k)
      ∧ (∀ n, Buf.owned (readMem k v) ≠ Buf.alias n) := by
  have htake : (readMem k v).take vi.shape.prod = readMem k v := by
    rw [← hlen, List.take_length]
  rcases htype with hdb | hint | ⟨hr, hfl⟩
  · by_cases hr : vi.rank = 0
    · have hs : pyStartswith (pyLower vi.varType) "string" = false :=
        psw_double_not_string hdb
      refine ⟨DType.f64, [1], [1],
        ["get_var_rank", "get_var_type", "get_var_type", "get_value_ptr",
          "get_var_type", "get_value_ptr"],
        ["get_var_rank", "get_var_type", "get_value_ptr"],
        ?_, ?_, fun _ => ⟨rfl, rfl⟩, fun h => absurd hr h, ?_, ?_, ?_⟩
      · simp [get_value, get_var_rank, get_var_type, get_value_ptr_scalar,
          hv, hr, hs, hdb, npCopy, readArr, readBuf]
      · simp [get_value_ptr, get_var_rank, get_value_ptr_scalar, get_var_type,
          hv, hr, hdb]
      · intro i x; simp [writeElem, readArr, readBuf]
      · intro i x; simp [writeElem]
      · intro n; simp
    · have hr0 : (vi.rank == 0) = false := by simp [hr]
      refine ⟨DType.f64, vi.shape, np_trim_zeros vi.shape,
        ["get_var_rank", "get_var_type", "get_var_rank", "get_var_shape",
          "get_value"],
        ["get_var_rank", "get_var_type", "get_var_rank", "get_var_shape",
          "get_value_ptr"],
        ?_, ?_, fun h => absurd h hr, fun _ => ⟨rfl, rfl⟩, ?_, ?_, ?_⟩
      · simp only [get_value, get_var_rank, get_var_type, get_var_shape, hv,
          hr0, hdb, nativeFill, npEmpty, numelOf, VarInfo.numel]
        simp [htake, VarInfo.numel, List.drop_replicate, Nat.sub_self]
      · simp [get_value_ptr, get_var_rank, get_var_type, get_var_shape, hv,
          hr0, hdb]
      · intro i x; simp [writeElem, readArr, readBuf]
      · intro i x; simp [writeElem]
      · intro n; simp
  · have hs : pyStartswith (pyLower vi.varType) "string" = false :=
      psw_int_not_string hint
    have hnd : pyStartswith (pyLower vi.varType) "double" = false :=
      psw_int_not_double hint
    have hnf : pyStartswith (pyLower vi.varType) "float" = false :=
      psw_int_not_float hint
    by_cases hr : vi.rank = 0
    · refine ⟨DType.i32, [1], [1],
        ["get_var_rank", "get_var_type", "get_var_type", "get_value_ptr",
          "get_var_type", "get_value_ptr"],
        ["get_var_rank", "get_var_type", "get_value_ptr"],
        ?_, ?_, fun _ => ⟨rfl, rfl⟩, fun h => absurd hr h, ?_, ?_, ?_⟩
      · simp [get_value, get_var_rank, get_var_type, get_value_ptr_scalar,
          hv, hr, hs, hnd, hnf, hint, npCopy, readArr, readBuf]
      · simp [get_value_ptr, get_var_rank, get_value_ptr_scalar, get_var_type,
          hv, hr, hnd, hnf, hint]
      · intro i x; simp [writeElem, readArr, readBuf]
      · intro i x; simp [writeElem]
      · intro n; simp
    · have hr0 : (vi.rank == 0) = false := by simp [hr]
      refine ⟨DType.i32, vi.shape, np_trim_zeros vi.shape,
        ["get_var_rank", "get_var_type", "get_var_rank", "get_var_shape",
          "get_value"],
        ["get_var_rank", "get_var_type", "get_var_rank", "get_var_shape",
          "get_value_ptr"],
        ?_, ?_, fun h => absurd h hr, fun _ => ⟨rfl, rfl⟩, ?_, ?_, ?_⟩
      · simp only [get_value, get_var_rank, get_var_type, get_var_shape, hv,
          hr0, hnd, hint, nativeFill, npEmpty, numelOf, VarInfo.numel]
        simp [htake, VarInfo.numel, List.drop_replicate, Nat.sub_self]
      · simp [get_value_ptr, get_var_rank, get_var_type, get_var_shape, hv,
          hr0, hnd, hnf, hint]
      · intro i x; simp [writeElem, readArr, readBuf]
      · intro i x; simp [writeElem]
      · intro n; simp
  · have hs : pyStartswith (pyLower vi.varType) "string" = false :=
      psw_float_not_string hfl
    have hnd : pyStartswith (pyLower vi.varType) "double" = false :=
      psw_float_not_double hfl
    refine ⟨DType.f32, [1], [1],
      ["get_var_rank", "get_var_type", "get_var_type", "get_value_ptr",
        "get_var_type", "get_value_ptr"],
      ["get_var_rank", "get_var_type", "get_value_ptr"],
      ?_, ?_, fun _ => ⟨rfl, rfl⟩, fun h => absurd hr h, ?_, ?_, ?_⟩
    · simp [get_value, get_var_rank, get_var_type, get_value_ptr_scalar, hv,
        hr, hs, hnd, hfl, npCopy, readArr, readBuf]
    · simp [get_value_ptr, get_var_rank, get_value_ptr_scalar, get_var_type,
        hv, hr, hnd, hfl]
    · intro i x; simp [writeElem, readArr, readBuf]
    · intro i x; simp [writeElem]
    · intro n; simp

/-- Witness for claim C1 at a concrete kernel holding a rank-2 DOUBLE
variable of shape 2 x 3 — the non-scalar case of the claim. -/
theorem claim_C1_copy_isolation_witness :
    ∃ dt sh sh2 tr tr2,
      get_value ⟨[("W", ⟨2, "DOUBLE", [2, 3], 48⟩)],
          [("W", [1, 2, 3, 4, 5, 6])], [], 0, 0, [],
          ⟨true, true, true, true, "e", "c"⟩, 0, 0, 0⟩ "W" none
        = (tr, Except.ok
            (⟨[("W", ⟨2, "DOUBLE", [2, 3], 48⟩)], [("W", [1, 2, 3, 4, 5, 6])],
              [], 0, 0, [], ⟨true, true, true, true, "e", "c"⟩, 0, 0, 0⟩,
             GVal.arr ⟨dt, sh, true, Buf.owned
               (readMem ⟨[("W", ⟨2, "DOUBLE", [2, 3], 48⟩)],
                 [("W", [1, 2, 3, 4, 5, 6])], [], 0, 0, [],
                 ⟨true, true, true, true, "e", "c"⟩, 0, 0, 0⟩ "W")⟩))
      ∧ get_value_ptr ⟨[("W", ⟨2, "DOUBLE", [2, 3], 48⟩)],
          [("W", [1, 2, 3, 4, 5, 6])], [], 0, 0, [],
          ⟨true, true, true, true, "e", "c"⟩, 0, 0, 0⟩ "W"
        = (tr2, Except.ok ⟨dt, sh2, true, Buf.alias "W"⟩)
      ∧ (VarInfo.rank ⟨2, "DOUBLE", [2, 3], 48⟩ = 0 → sh = [1] ∧ sh2 = [1])
      ∧ (VarInfo.rank ⟨2, "DOUBLE", [2, 3], 48⟩ ≠ 0 →
          sh = VarInfo.shape ⟨2, "DOUBLE", [2, 3], 48⟩
          ∧ sh2 = np_trim_zeros (VarInfo.shape ⟨2, "DOUBLE", [2, 3], 48⟩))
      ∧ (∀ i x, readArr
            (writeElem ⟨[("W", ⟨2, "DOUBLE", [2, 3], 48⟩)],
              [("W", [1, 2, 3, 4, 5, 6])], [], 0, 0, [],
              ⟨true, true, true, true, "e", "c"⟩, 0, 0, 0⟩
              ⟨dt, sh2, true, Buf.alias "W"⟩ i x).1
            ⟨dt, sh, true, Buf.owned
              (readMem ⟨[("W", ⟨2, "DOUBLE", [2, 3], 48⟩)],
                [("W", [1, 2, 3, 4, 5, 6])], [], 0, 0, [],
                ⟨true, true, true, true, "e", "c"⟩, 0, 0, 0⟩ "W")⟩
          = readMem ⟨[("W", ⟨2, "DOUBLE", [2, 3], 48⟩)],
              [("W", [1, 2, 3, 4, 5, 6])], [], 0, 0, [],
              ⟨true, true, true, true, "e", "c"⟩, 0, 0, 0⟩ "W")
      ∧ (∀ i x, (writeElem ⟨[("W", ⟨2, "DOUBLE", [2, 3], 48⟩)],
            [("W", [1, 2, 3, 4, 5, 6])], [], 0, 0, [],
            ⟨true, true, true, true, "e", "c"⟩, 0, 0, 0⟩
            ⟨dt, sh, true, Buf.owned
              (readMem ⟨[("W", ⟨2, "DOUBLE", [2, 3], 48⟩)],
                [("W", [1, 2, 3, 4, 5, 6])], [], 0, 0, [],
                ⟨true, true, true, true, "e", "c"⟩, 0, 0, 0⟩ "W")⟩ i x).1
          = ⟨[("W", ⟨2, "DOUBLE", [2, 3], 48⟩)], [("W", [1, 2, 3, 4, 5, 6])],
              [], 0, 0, [], ⟨true, true, true, true, "e", "c"⟩, 0, 0, 0⟩)
      ∧ (∀ n, Buf.owned (readMem ⟨[("W", ⟨2, "DOUBLE", [2, 3], 48⟩)],
          [("W", [1, 2, 3, 4, 5, 6])], [], 0, 0, [],
          ⟨true, true, true, true, "e", "c"⟩, 0, 0, 0⟩ "W")
        ≠ Buf.alias n) :=
  claim_C1_copy_isolation
    ⟨[("W", ⟨2, "DOUBLE", [2, 3], 48⟩)], [("W", [1, 2, 3, 4, 5, 6])], [], 0,
      0, [], ⟨true, true, true, true, "e", "c"⟩, 0, 0, 0⟩ "W"
    ⟨2, "DOUBLE", [2, 3], 48⟩ rfl (by decide) (Or.inl (by decide))

/-- After `set_value` writes `data`, the variable's kernel memory is `data`. -/
theorem readMem_after_set (k : Kernel) (v : String) (data : List Int) :
    readMem { k with mem := assocSet k.mem v data } v = data := by
  simp [readMem, assocSet_lookup_self]

/-- Claim C2: for a Double (float64) or Int32 variable and a C-contiguous
owned array `X` of the variable's shape and exact element type,
`set_value(v, X)` followed by `get_value(v)` returns an array whose elements
equal `X`'s (and, for rank >= 1, whose shape is the variable's shape): the
round trip through kernel memory is the identity. -/
theorem claim_C2_round_trip (k : Kernel) (v : String) (vi : VarInfo)
    (X : NArray) (data : List Int)
    (hv : k.vars.lookup v = some vi)
    (htype : (pyStartswith (pyLower vi.varType) "double" = true
        ∧ X.dtype = DType.f64)
      ∨ (pyStartswith (pyLower vi.varType) "int" = true
        ∧ X.dtype = DType.i32))
    (hC : X.flagC = true) (hsh : X.shape = vi.shape)
    (hbuf : X.buf = Buf.owned data) (hlen : data.length = vi.shape.prod) :
    ∃ k2 tr tr2 a,
      set_value k v X = (tr, Except.ok k2)
      ∧ get_value k2 v none = (tr2, Except.ok (k2, GVal.arr a))
      ∧ readArr k2 a = data
      ∧ (vi.rank ≠ 0 → a.shape = vi.shape) := by
  have htake : data.take vi.shape.prod = data := by
    rw [← hlen, List.take_length]
  rcases htype with ⟨hdb, hdt⟩ | ⟨hint, hdt⟩
  · have hne : (X.dtype != DType.f64) = false := by simp [bne, hdt]
    have hs : pyStartswith (pyLower vi.varType) "string" = false :=
      psw_double_not_string hdb
    have hset : set_value k v X
        = (["get_var_type", "set_value"],
            Except.ok { k with mem := assocSet k.mem v data }) := by
      simp [set_value, get_var_type, hv, hC, hdb, hne, nativeSet, readArr,
        readBuf, hbuf, numelOf, VarInfo.numel, htake]
    have hmem : readMem { k with mem := assocSet k.mem v data } v = data :=
      readMem_after_set k v data
    by_cases hr : vi.rank = 0
    · refine ⟨{ k with mem := assocSet k.mem v data },
        ["get_var_type", "set_value"],
        ["get_var_rank", "get_var_type", "get_var_type", "get_value_ptr",
          "get_var_type", "get_value_ptr"],
        ⟨DType.f64, [1], true, Buf.owned data⟩, hset, ?_, ?_, ?_⟩
      · simp only [get_value, get_var_rank, get_var_type,
          get_value_ptr_scalar, hv, hr, hs, hdb, npCopy, readArr, readBuf]
        simp [hmem]
      · simp [readArr, readBuf]
      · intro h; exact absurd hr h
    · have hr0 : (vi.rank == 0) = false := by simp [hr]
      refine ⟨{ k with mem := assocSet k.mem v data },
        ["get_var_type", "set_value"],
        ["get_var_rank", "get_var_type", "get_var_rank", "get_var_shape",
          "get_value"],
        ⟨DType.f64, vi.shape, true, Buf.owned data⟩, hset, ?_, ?_, ?_⟩
      · simp only [get_value, get_var_rank, get_var_type, get_var_shape, hv,
          hr0, hdb, nativeFill, npEmpty, numelOf, VarInfo.numel]
        simp [hmem, htake, VarInfo.numel, List.drop_replicate, Nat.sub_self]
      · simp [readArr, readBuf]
      · intro _; rfl
  · have hne : (X.dtype != DType.i32) = false := by simp [bne, hdt]
    have hs : pyStartswith (pyLower vi.varType) "string" = false :=
      psw_int_not_string hint
    have hnd : pyStartswith (pyLower vi.varType) "double" = false :=
      psw_int_not_double hint
    have hnf : pyStartswith (pyLower vi.varType) "float" = false :=
      psw_int_not_float hint
    have hset : set_value k v X
        = (["get_var_type", "set_value"],
            Except.ok { k with mem := assocSet k.mem v data }) := by
      simp [set_value, get_var_type, hv, hC, hint, hnd, hne, nativeSet,
        readArr, readBuf, hbuf, numelOf, VarInfo.numel, htake]
    have hmem : readMem { k with mem := assocSet k.mem v data } v = data :=
      readMem_after_set k v data
    by_cases hr : vi.rank = 0
    · refine ⟨{ k with mem := assocSet k.mem v data },
        ["get_var_type", "set_value"],
        ["get_var_rank", "get_var_type", "get_var_type", "get_value_ptr",
          "get_var_type", "get_value_ptr"],
        ⟨DType.i32, [1], true, Buf.owned data⟩, hset, ?_, ?_, ?_⟩
      · simp only [get_value, get_var_rank, get_var_type,
          get_value_ptr_scalar, hv, hr, hs, hnd, hnf, hint, npCopy, readArr,
          readBuf]
        simp [hmem]
      · simp [readArr, readBuf]
      · intro h; exact absurd hr h
    · have hr0 : (vi.rank == 0) = false := by simp [hr]
      refine ⟨{ k with mem := assocSet k.mem v data },
        ["get_var_type", "set_value"],
        ["get_var_rank", "get_var_type", "get_var_rank", "get_var_shape",
          "get_value"],
        ⟨DType.i32, vi.shape, true, Buf.owned data⟩, hset, ?_, ?_, ?_⟩
      · simp only [get_value, get_var_rank, get_var_type, get_var_shape, hv,
          hr0, hnd, hint, nativeFill, npEmpty, numelOf, VarInfo.numel]
        simp [hmem, htake, VarInfo.numel, List.drop_replicate, Nat.sub_self]
      · simp [readArr, readBuf]
      · intro _; rfl

/-- Witness for claim C2 at a concrete kernel with a rank-2 DOUBLE variable
of shape 2 x 3 and the source array 9,8,7,6,5,4. -/
theorem claim_C2_round_trip_witness :
    ∃ k2 tr tr2 a,
      set_value ⟨[("W", ⟨2, "DOUBLE", [2, 3], 48⟩)], [("W", [1, 2, 3, 4, 5, 6])],
          [], 0, 0, [], ⟨true, true, true, true, "e", "c"⟩, 0, 0, 0⟩ "W"
          ⟨DType.f64, [2, 3], true, Buf.owned [9, 8, 7, 6, 5, 4]⟩
        = (tr, Except.ok k2)
      ∧ get_value k2 "W" none = (tr2, Except.ok (k2, GVal.arr a))
      ∧ readArr k2 a = [9, 8, 7, 6, 5, 4]
      ∧ (VarInfo.rank ⟨2, "DOUBLE", [2, 3], 48⟩ ≠ 0 →
          a.shape = VarInfo.shape ⟨2, "DOUBLE", [2, 3], 48⟩) :=
  claim_C2_round_trip
    ⟨[("W", ⟨2, "DOUBLE", [2, 3], 48⟩)], [("W", [1, 2, 3, 4, 5, 6])], [], 0, 0,
      [], ⟨true, true, true, true, "e", "c"⟩, 0, 0, 0⟩ "W"
    ⟨2, "DOUBLE", [2, 3], 48⟩
    ⟨DType.f64, [2, 3], true, Buf.owned [9, 8, 7, 6, 5, 4]⟩
    [9, 8, 7, 6, 5, 4] rfl (Or.inl ⟨by decide, rfl⟩) rfl rfl rfl (by decide)

theorem psw_string_not_double {t : String}
    (h : pyStartswith t "string" = true) :
    pyStartswith t "double" = false :=
  pyStartswith_excl rfl rfl (by decide) h

theorem psw_string_not_int {t : String} (h : pyStartswith t "string" = true) :
    pyStartswith t "int" = false :=
  pyStartswith_excl rfl rfl (by decide) h

/-- Counterexample to claim C7 as stated: a variable whose Catalog shape is
(0, 5) — a LEADING zero dimension — yields an aliased view of shape (5,), not
(0, 5): `np.trim_zeros` with its default mode removes zeros from the front as
well, while the claim (and the spec) say only trailing zero dimensions are
trimmed. -/
theorem claim_C7_counterexample :
    (get_value_ptr ⟨[("Z", ⟨2, "DOUBLE", [0, 5], 0⟩)], [], [], 0, 0, [],
        ⟨true, true, true, true, "e", "c"⟩, 0, 0, 0⟩ "Z").2
      = Except.ok ⟨DType.f64, [5], true, Buf.alias "Z"⟩
    ∧ spec_trimTrailingZeros [0, 5] = [0, 5]
    ∧ ([5] : List Nat) ≠ [0, 5] :=
  ⟨rfl, by decide, by decide⟩

/-- Claim C7 as amended: for a variable of rank >= 1 and supported numeric
type, the aliased view returned by `get_value_ptr` has the Catalog shape with
zero dimensions removed from BOTH ends (`np.trim_zeros` default): trailing
zeros are trimmed as the spec says, but leading zeros are trimmed too;
interior zeros are preserved. -/
theorem claim_C7_alias_shape (k : Kernel) (v : String) (vi : VarInfo)
    (hv : k.vars.lookup v = some vi) (hr : vi.rank ≠ 0)
    (htype : pyStartswith (pyLower vi.varType) "double" = true
      ∨ pyStartswith (pyLower vi.varType) "float" = true
      ∨ pyStartswith (pyLower vi.varType) "int" = true) :
    ∃ dt, get_value_ptr k v
      = (["get_var_rank", "get_var_type", "get_var_rank", "get_var_shape",
          "get_value_ptr"],
         Except.ok ⟨dt, np_trim_zeros vi.shape, true, Buf.alias v⟩) := by
  have hr0 : (vi.rank == 0) = false := by simp [hr]
  rcases htype with hdb | hfl | hint
  · exact ⟨DType.f64, by
      simp [get_value_ptr, get_var_rank, get_var_type, get_var_shape, hv,
        hr0, hdb]⟩
  · have hnd := psw_float_not_double hfl
    exact ⟨DType.f32, by
      simp [get_value_ptr, get_var_rank, get_var_type, get_var_shape, hv,
        hr0, hnd, hfl]⟩
  · have hnd := psw_int_not_double hint
    have hnf := psw_int_not_float hint
    exact ⟨DType.i32, by
      simp [get_value_ptr, get_var_rank, get_var_type, get_var_shape, hv,
        hr0, hnd, hnf, hint]⟩

/-- Witness for the amended claim C7 at a concrete kernel whose DOUBLE
variable has Catalog shape (10, 5, 0): the view's shape is the trimmed
(10, 5). -/
theorem claim_C7_alias_shape_witness :
    ∃ dt, get_value_ptr ⟨[("W", ⟨3, "DOUBLE", [10, 5, 0], 0⟩)], [], [], 0, 0,
        [], ⟨true, true, true, true, "e", "c"⟩, 0, 0, 0⟩ "W"
      = (["get_var_rank", "get_var_type", "get_var_rank", "get_var_shape",
          "get_value_ptr"],
         Except.ok ⟨dt, np_trim_zeros [10, 5, 0], true, Buf.alias "W"⟩) :=
  claim_C7_alias_shape
    ⟨[("W", ⟨3, "DOUBLE", [10, 5, 0], 0⟩)], [], [], 0, 0, [],
      ⟨true, true, true, true, "e", "c"⟩, 0, 0, 0⟩ "W"
    ⟨3, "DOUBLE", [10, 5, 0], 0⟩ rfl (by decide) (Or.inl (by decide))

/-- Dropping while a predicate holds on all of a leading block skips it. -/
theorem dropWhile_app_all {α : Type} (p : α → Bool) (l1 l2 : List α)
    (h : ∀ x ∈ l1, p x = true) : (l1 ++ l2).dropWhile p = l2.dropWhile p := by
  induction l1 with
  | nil => simp
  | cons x t ih =>
    have hx : p x = true := h x (List.mem_cons_self x t)
    simp only [List.cons_append, List.dropWhile_cons, hx, if_true]
    exact ih (fun y hy => h y (List.mem_cons_of_mem x hy))

/-- A list none of whose elements satisfy the predicate is left intact. -/
theorem dropWhile_all_false {α : Type} (p : α → Bool) (l : List α)
    (h : ∀ x ∈ l, p x = false) : l.dropWhile p = l := by
  cases l with
  | nil => rfl
  | cons x t => simp [List.dropWhile_cons, h x (List.mem_cons_self x t)]

/-- `bytes.split` at the first null recovers the content bytes exactly. -/
theorem takeWhile_until_null (s junk : List Nat) (h : ∀ c ∈ s, c ≠ 0) :
    (s ++ 0 :: junk).takeWhile (fun c => c != 0) = s := by
  induction s with
  | nil => simp [List.takeWhile_cons]
  | cons c t ih =>
    have hc : (c != 0) = true := by
      simp only [bne_iff_ne, ne_eq]
      exact h c (List.mem_cons_self c t)
    simp only [List.cons_append, List.takeWhile_cons, hc, if_true,
      List.cons.injEq, true_and]
    exact ih (fun y hy => h y (List.mem_cons_of_mem c hy))

/-- The fixed-width decode (numpy trailing-null drop, then Python
`str.strip()`) maps content bytes followed by space padding and null padding
back to exactly the content bytes. -/
theorem decodeFixedString_strips (s : List Nat) (a b : Nat)
    (hs0 : ∀ c ∈ s, c ≠ 0) (hsp : ∀ c ∈ s, isPySpace c = false)
    (hne : s ≠ []) :
    decodeFixedString (s ++ List.replicate a 32 ++ List.replicate b 0) = s := by
  have hdt : dropTrailingNulls (s ++ List.replicate a 32 ++ List.replicate b 0)
      = s ++ List.replicate a 32 := by
    unfold dropTrailingNulls
    have h1 : (s ++ List.replicate a 32 ++ List.replicate b 0).reverse
        = List.replicate b 0 ++ (List.replicate a 32 ++ s.reverse) := by
      simp [List.reverse_append, List.reverse_replicate]
    rw [h1, dropWhile_app_all _ _ _ (fun x hx => by
      rw [List.eq_of_mem_replicate hx]; rfl),
      dropWhile_all_false _ _ (fun x hx => by
        rcases List.mem_append.mp hx with hx | hx
        · rw [List.eq_of_mem_replicate hx]; decide
        · simp only [beq_eq_false_iff_ne, ne_eq]
          exact hs0 x (List.mem_reverse.mp hx))]
    simp [List.reverse_append, List.reverse_replicate]
  rw [decodeFixedString, hdt]
  cases s with
  | nil => exact absurd rfl hne
  | cons c t =>
    unfold pyStrip
    have hc : isPySpace c = false := hsp c (List.mem_cons_self c t)
    simp only [List.cons_append, List.dropWhile_cons, hc, Bool.false_eq_true,
      if_false]
    have h2 : ((c :: (t ++ List.replicate a 32)) :
        List Nat).reverse.dropWhile isPySpace = (c :: t).reverse := by
      have h3 : ((c :: (t ++ List.replicate a 32)) : List Nat).reverse
          = List.replicate a 32 ++ (c :: t).reverse := by
        simp [List.reverse_append, List.reverse_replicate]
      rw [h3, dropWhile_app_all _ _ _ (fun x hx => by
        rw [List.eq_of_mem_replicate hx]; rfl),
        dropWhile_all_false _ _ (fun x hx =>
          hsp x (List.mem_reverse.mp hx))]
    rw [h2, List.reverse_reverse]

/-- Claim C8: fixed-width strings are trimmed of padding on decode: each name
returned by `get_input_var_names` is its table row's bytes truncated at the
first null byte; a fixed-width field holding content bytes followed by
space/null padding decodes to exactly the content; and each element of a
FixedString `get_value` result is the decoded, padding-stripped content. -/
theorem claim_C8_fixed_width_decode (k : Kernel) (v : String) (vi : VarInfo)
    (s junk : List Nat) (a b : Nat)
    (hs0 : ∀ c ∈ s, c ≠ 0) (hsp : ∀ c ∈ s, isPySpace c = false) (hne : s ≠ [])
    (hlen : k.lenVarAddress = (s ++ 0 :: junk).length)
    (hcount : k.inputItemCount = 1)
    (hflat : k.inputNamesFlat = s ++ 0 :: junk)
    (hv : k.vars.lookup v = some vi)
    (hstr : pyStartswith (pyLower vi.varType) "string" = true)
    (hr : vi.rank ≠ 0) (hsh : vi.shape = [1])
    (hrow : readSMem k v = [s ++ List.replicate a 32 ++ List.replicate b 0]) :
    get_input_var_names k
      = (["get_input_item_count", "get_input_var_names"],
         Except.ok [asciiDecode s])
    ∧ decodeFixedString (s ++ List.replicate a 32 ++ List.replicate b 0) = s
    ∧ get_value k v none
      = (["get_var_rank", "get_var_type", "get_var_rank", "get_var_shape",
          "get_var_nbytes", "get_value"],
         Except.ok (k, GVal.strs [asciiDecode s])) := by
  have hdec := decodeFixedString_strips s a b hs0 hsp hne
  refine ⟨?_, hdec, ?_⟩
  · simp only [get_input_var_names, get_input_item_count, hcount, hflat,
      hlen, List.range_succ, List.range_zero, List.nil_append, List.map_cons,
      List.map_nil, Nat.zero_mul, List.drop_zero, List.take_length,
      truncAtNull, takeWhile_until_null s junk hs0]
    rfl
  · have hr0 : (vi.rank == 0) = false := by simp [hr]
    have hnd := psw_string_not_double hstr
    have hni := psw_string_not_int hstr
    have hdec2 : decodeFixedString (s ++ (List.replicate a 32
        ++ List.replicate b 0)) = s := by
      rw [← List.append_assoc]; exact hdec
    simp [get_value, get_var_rank, get_var_type, get_var_shape,
      get_var_nbytes, hv, hr0, hnd, hni, hstr, hsh, hrow, hdec2]

/-- Witness for claim C8 at a concrete kernel: the names table row is
"ABC" followed by a null and junk, and the STRING variable's field is "ABC"
padded with two spaces and two nulls. -/
theorem claim_C8_fixed_width_decode_witness :
    get_input_var_names
        ⟨[("S", ⟨1, "STRING LEN=7", [1], 7⟩)], [],
          [("S", [[65, 66, 67, 32, 32, 0, 0]])], 5, 1, [65, 66, 67, 0, 90],
          ⟨true, true, true, true, "e", "c"⟩, 0, 0, 0⟩
      = (["get_input_item_count", "get_input_var_names"],
         Except.ok [asciiDecode [65, 66, 67]])
    ∧ decodeFixedString ([65, 66, 67] ++ List.replicate 2 32
        ++ List.replicate 2 0) = [65, 66, 67]
    ∧ get_value
        ⟨[("S", ⟨1, "STRING LEN=7", [1], 7⟩)], [],
          [("S", [[65, 66, 67, 32, 32, 0, 0]])], 5, 1, [65, 66, 67, 0, 90],
          ⟨true, true, true, true, "e", "c"⟩, 0, 0, 0⟩ "S" none
      = (["get_var_rank", "get_var_type", "get_var_rank", "get_var_shape",
          "get_var_nbytes", "get_value"],
         Except.ok
           (⟨[("S", ⟨1, "STRING LEN=7", [1], 7⟩)], [],
             [("S", [[65, 66, 67, 32, 32, 0, 0]])], 5, 1, [65, 66, 67, 0, 90],
             ⟨true, true, true, true, "e", "c"⟩, 0, 0, 0⟩,
            GVal.strs [asciiDecode [65, 66, 67]])) :=
  claim_C8_fixed_width_decode
    ⟨[("S", ⟨1, "STRING LEN=7", [1], 7⟩)], [],
      [("S", [[65, 66, 67, 32, 32, 0, 0]])], 5, 1, [65, 66, 67, 0, 90],
      ⟨true, true, true, true, "e", "c"⟩, 0, 0, 0⟩ "S"
    ⟨1, "STRING LEN=7", [1], 7⟩ [65, 66, 67] [90] 2 2
    (by decide) (by decide) (by decide) (by decide) rfl rfl rfl (by decide)
    (by decide) rfl rfl

end MarshalerClaims

end Xmipy
